import Mathlib

/-!
# EmulationStation `es-core/src/platform.cpp`

A shallow embedding of the power-control shim: the logind D-Bus helpers,
`runShutdownCommand`, `runRestartCommand`, `runSystemCommand`, the quit-mode
slot with `quitES`, `touch` and `processQuitMode`.

The program talks to the operating system, so the embedding passes an explicit
`World` (quit-mode slot, file system, SDL event queue, log, and the ordered
trace of the OS-level calls that act on the outside world: file opens, shell
commands, bus messages) and takes the behaviour of the host libraries
(`system`, `_wsystem`, libdbus) as a `Host` record of functions; the UTF-8
converter `wstring_convert::from_bytes` is modelled as a decoder.  The two preprocessor switches `WIN32` and `USE_DBUS`
are the two fields of `Build`.
-/

namespace ES

/-! ## Strings -/

/-- A `std::string`: a sequence of bytes, which may contain NUL bytes. -/
abbrev StdString := List Nat

/-- A C string (`const char *`): the bytes before the terminating NUL. -/
abbrev CStr := List Nat

/-- A `std::wstring` / `const wchar_t *`: a sequence of wide code units. -/
abbrev WString := List Nat

/-- A string literal of the source; all literals of the file are ASCII, one
byte per character. -/
def lit (s : String) : List Nat := s.toList.map Char.toNat

/-- The C string seen through `s.c_str()`: a reader of the returned pointer
stops at the first NUL code unit. -/
def c_str (s : List Nat) : List Nat := s.takeWhile (fun b => b != 0)

/-! ## UTF-8 -/

/-- A Unicode scalar value: a code point below U+110000 that is not a
surrogate. -/
def isScalar (c : Nat) : Bool := c < 0xD800 || (0xE000 ≤ c && c < 0x110000)

/-- The UTF-8 encoding of one code point. -/
def utf8EncodeChar (c : Nat) : List Nat :=
  if c < 0x80 then [c]
  else if c < 0x800 then [0xC0 + c / 64, 0x80 + c % 64]
  else if c < 0x10000 then [0xE0 + c / 4096, 0x80 + c / 64 % 64, 0x80 + c % 64]
  else [0xF0 + c / 262144, 0x80 + c / 4096 % 64, 0x80 + c / 64 % 64, 0x80 + c % 64]

/-- The UTF-8 encoding of a sequence of code points. -/
def utf8Encode (cps : List Nat) : List Nat := cps.flatMap utf8EncodeChar

/-- A byte sequence is valid UTF-8 when it is the encoding of a sequence of
scalar values. -/
def ValidUTF8 (bs : List Nat) : Prop :=
  ∃ cps : List Nat, (∀ c ∈ cps, isScalar c = true) ∧ utf8Encode cps = bs

/-- A continuation byte `10xxxxxx`. -/
def isCont (b : Nat) : Bool := 0x80 ≤ b && b < 0xC0

/-- Decodes the code point at the head of a byte sequence and returns it with
the bytes that follow; `none` when the head is not a well-formed encoding
(stray continuation byte, truncated or overlong form, surrogate, value above
U+10FFFF, or not a byte that can start an encoding). -/
def decodeOne : List Nat → Option (Nat × List Nat)
  | [] => none
  | b0 :: rest =>
    if b0 < 0x80 then some (b0, rest)
    else if b0 < 0xC0 then none
    else if b0 < 0xE0 then
      match rest with
      | b1 :: rest1 =>
        if isCont b1 && 0x80 ≤ (b0 - 0xC0) * 64 + (b1 - 0x80) then
          some ((b0 - 0xC0) * 64 + (b1 - 0x80), rest1)
        else none
      | _ => none
    else if b0 < 0xF0 then
      match rest with
      | b1 :: b2 :: rest2 =>
        if isCont b1 && isCont b2 &&
            0x800 ≤ (b0 - 0xE0) * 4096 + (b1 - 0x80) * 64 + (b2 - 0x80) &&
            isScalar ((b0 - 0xE0) * 4096 + (b1 - 0x80) * 64 + (b2 - 0x80)) then
          some ((b0 - 0xE0) * 4096 + (b1 - 0x80) * 64 + (b2 - 0x80), rest2)
        else none
      | _ => none
    else if b0 < 0xF8 then
      match rest with
      | b1 :: b2 :: b3 :: rest3 =>
        if isCont b1 && isCont b2 && isCont b3 &&
            0x10000 ≤ (b0 - 0xF0) * 262144 + (b1 - 0x80) * 4096 + (b2 - 0x80) * 64 + (b3 - 0x80) &&
            isScalar ((b0 - 0xF0) * 262144 + (b1 - 0x80) * 4096 + (b2 - 0x80) * 64 + (b3 - 0x80))
        then
          some ((b0 - 0xF0) * 262144 + (b1 - 0x80) * 4096 + (b2 - 0x80) * 64 + (b3 - 0x80), rest3)
        else none
      | _ => none
    else none

/-- Decodes a whole byte sequence, one code point per unit of fuel. -/
def decodeAll : Nat → List Nat → Option (List Nat)
  | _, [] => some []
  | 0, _ :: _ => none
  | n + 1, b :: bs =>
    match decodeOne (b :: bs) with
    | none => none
    | some (c, rest) => (decodeAll n rest).map (fun cs => c :: cs)

/-- Modelled from the spec: the conversion
`wstring_convert<codecvt_utf8<wchar_t>>::from_bytes` of the C++ library, which
the repository calls but does not contain.  The wide string is the sequence of
code points that the bytes encode in UTF-8 (the transcoding is lossless), and
`none` stands for the `std::range_error` thrown when the bytes are not valid
UTF-8.  Every code point takes at least one byte, so the length of the input
is enough fuel. -/
def from_bytes (bs : StdString) : Option WString := decodeAll bs.length bs

/-! ## Build configuration and data model -/

/-- The preprocessor switches the file branches on. -/
structure Build where
  WIN32 : Bool
  USE_DBUS : Bool
deriving DecidableEq, Repr

/-- The enumeration `QuitMode` of `platform.h`. -/
inductive QuitMode where
  | QUIT
  | RESTART
  | REBOOT
  | SHUTDOWN
deriving DecidableEq, Repr

/-- The part of the file system the code can observe or change: regular files
with their content, directories, and the paths on which opening for writing
fails (permissions, read-only mount, missing parent directory, ...). -/
structure FileSystem where
  files : List (CStr × List Nat)
  dirs : List CStr
  denied : List CStr
deriving DecidableEq, Repr

/-- Whether a regular file of that name exists. -/
def FileSystem.isFile (fs : FileSystem) (p : CStr) : Bool :=
  fs.files.any (fun e => e.1 == p)

/-- The content of the regular file of that name, if there is one. -/
def FileSystem.content (fs : FileSystem) (p : CStr) : Option (List Nat) :=
  (fs.files.find? (fun e => e.1 == p)).map (fun e => e.2)

/-- The call `access(p, F_OK)`: 0 when the path exists, -1 otherwise. -/
def FileSystem.access (fs : FileSystem) (p : CStr) : Int :=
  if fs.isFile p || fs.dirs.contains p then 0 else -1

/-- The call `open(p, O_CREAT|O_WRONLY, 0644)`: the returned descriptor
(negative on failure) and the file system afterwards.  Without `O_TRUNC` an
existing file keeps its content; an absent one is created empty. -/
def FileSystem.open_creat (fs : FileSystem) (p : CStr) : Int × FileSystem :=
  if fs.denied.contains p || fs.dirs.contains p then (-1, fs)
  else if fs.isFile p then (3, fs)
  else (3, { fs with files := fs.files ++ [(p, [])] })

/-- The call `fopen(p, "ab+")`: whether a stream was returned, and the file
system afterwards.  Append mode keeps the content of an existing file and
creates an absent one empty. -/
def FileSystem.fopen_ab (fs : FileSystem) (p : CStr) : Bool × FileSystem :=
  if fs.denied.contains p || fs.dirs.contains p then (false, fs)
  else if fs.isFile p then (true, fs)
  else (true, { fs with files := fs.files ++ [(p, [])] })

/-- An argument of a D-Bus message. -/
inductive DBusArg where
  | string (s : CStr)
  | boolean (b : Bool)
deriving DecidableEq, Repr

/-- A D-Bus message: a method call with its arguments, or a reply. -/
structure DBusMessage where
  destination : CStr
  path : CStr
  iface : CStr
  member : CStr
  args : List DBusArg
deriving DecidableEq, Repr

/-- A set `DBusError`. -/
structure DBusError where
  name : CStr
  message : CStr
deriving DecidableEq, Repr

/-- What `dbus_bus_get` followed by `dbus_connection_send_with_reply_and_block`
leaves behind: either the reply message, or a NULL pointer together with the
error slot (`none` when `dbus_error_is_set` is false).  The library sets the
error only on the paths on which it returns NULL. -/
inductive DBusSendResult where
  | ok (message : DBusMessage)
  | failed (error : Option DBusError)
deriving DecidableEq, Repr

/-- The returned message pointer, `none` for NULL. -/
def DBusSendResult.reply : DBusSendResult → Option DBusMessage
  | DBusSendResult.ok m => some m
  | DBusSendResult.failed _ => none

/-- The error slot after the call. -/
def DBusSendResult.error : DBusSendResult → Option DBusError
  | DBusSendResult.ok _ => none
  | DBusSendResult.failed e => e

/-- The host libraries the file calls, as functions. -/
structure Host where
  /-- The status `system(cmd)` yields. -/
  system : CStr → Int
  /-- The status `_wsystem(cmd)` yields. -/
  wsystem : WString → Int
  /-- The outcome of sending a message on the system bus and blocking for
  the reply. -/
  dbus_send : DBusMessage → DBusSendResult
  /-- The call `dbus_message_get_args(reply, NULL, DBUS_TYPE_STRING, &arg,
  DBUS_TYPE_INVALID)`: the string read when it returns true. -/
  dbus_get_string : DBusMessage → Option CStr

/-- An OS-level call that acts on the outside world. -/
inductive Event where
  /-- The call `open(path, O_CREAT|O_WRONLY, 0644)`. -/
  | openCreat (path : CStr)
  /-- The call `fopen(path, "ab+")`. -/
  | fopen (path : CStr)
  /-- The call `system(cmd)`. -/
  | system (cmd : CStr)
  /-- The call `_wsystem(cmd)`. -/
  | wsystem (cmd : WString)
  /-- A message sent on the system bus. -/
  | dbus (msg : DBusMessage)
deriving DecidableEq, Repr

/-- The severities of `Log.h` that the file uses. -/
inductive LogLevel where
  | LogError
  | LogInfo
deriving DecidableEq, Repr

/-- An operation on the log. -/
inductive LogOp where
  | write (level : LogLevel) (text : List Nat)
  | flush
deriving DecidableEq, Repr

/-- An SDL event, reduced to its `type` field. -/
structure SDL_Event where
  type : Nat
deriving DecidableEq, Repr

/-- The event type `SDL_QUIT` of `SDL_events.h`. -/
def SDL_QUIT : Nat := 0x100

/-- The state the file reads and writes. -/
structure World where
  /-- The global `quitMode`. -/
  quitMode : QuitMode
  fs : FileSystem
  /-- The events pushed on the SDL event queue, oldest first. -/
  sdlQueue : List SDL_Event
  log : List LogOp
  /-- The OS-level calls made so far, oldest first. -/
  trace : List Event
deriving DecidableEq, Repr

/-- The state at program start: `QuitMode quitMode = QuitMode::QUIT`. -/
def World.init (fs : FileSystem) : World :=
  { quitMode := QuitMode.QUIT, fs := fs, sdlQueue := [], log := [], trace := [] }

/-! ## Logging and host calls -/

/-- The statement `LOG(level) << text`. -/
def LOG (level : LogLevel) (text : List Nat) (w : World) : World :=
  { w with log := w.log ++ [LogOp.write level text] }

/-- The call `Log::flush()`. -/
def Log_flush (w : World) : World :=
  { w with log := w.log ++ [LogOp.flush] }

/-- The call `system(cmd)`: one shell invocation, recorded in the trace. -/
def system (h : Host) (cmd : CStr) (w : World) : Int × World :=
  (h.system cmd, { w with trace := w.trace ++ [Event.system cmd] })

/-- The call `_wsystem(cmd)`. -/
def wsystem (h : Host) (cmd : WString) (w : World) : Int × World :=
  (h.wsystem cmd, { w with trace := w.trace ++ [Event.wsystem cmd] })

/-! ## The logind helpers (`#ifdef USE_DBUS`) -/

def LOGIND_DEST : CStr := lit "org.freedesktop.login1"
def LOGIND_PATH : CStr := lit "/org/freedesktop/login1"
def LOGIND_IFACE : CStr := lit "org.freedesktop.login1.Manager"

/-- The function `HasLogind`. -/
def HasLogind (w : World) : Bool :=
  decide (w.fs.access (lit "/run/systemd/seats/") ≥ 0)

/-- The call `dbus_message_new_method_call`: a call without arguments. -/
def dbus_message_new_method_call (dest path iface method : CStr) : DBusMessage :=
  { destination := dest, path := path, iface := iface, member := method, args := [] }

/-- The function `DBusSystemSend`. -/
def DBusSystemSend (h : Host) (message : DBusMessage) (w : World) :
    Option DBusMessage × World :=
  let r := h.dbus_send message
  let w1 := { w with trace := w.trace ++ [Event.dbus message] }
  let w2 := match r.error with
    | some e => LOG LogLevel.LogError
        (lit "DBus: Error " ++ e.name ++ lit " - " ++ e.message) w1
    | none => w1
  (r.reply, w2)

/-- The function `LogindCheckCapability`. -/
def LogindCheckCapability (h : Host) (capability : CStr) (w : World) : Bool × World :=
  let message := dbus_message_new_method_call LOGIND_DEST LOGIND_PATH LOGIND_IFACE capability
  let r := DBusSystemSend h message w
  match r.1 with
  | some reply =>
    match h.dbus_get_string reply with
    | some arg => (arg == lit "yes", r.2)
    | none => (false, r.2)
  | none => (false, r.2)

/-- The function `LogindSetPowerState`. -/
def LogindSetPowerState (h : Host) (state : CStr) (w : World) : Bool × World :=
  let message := dbus_message_new_method_call LOGIND_DEST LOGIND_PATH LOGIND_IFACE state
  let arg : Bool := false
  let message := { message with args := message.args ++ [DBusArg.boolean arg] }
  let r := DBusSystemSend h message w
  (r.1.isSome, r.2)

/-! ## Shutdown, restart, generic command -/

/-- The conversion of a `bool` result to the `int` return type. -/
def boolToInt (b : Bool) : Int := if b then 1 else 0

/-- The function `runShutdownCommand`. -/
def runShutdownCommand (b : Build) (h : Host) (w : World) : Int × World :=
  if b.WIN32 then system h (lit "shutdown -s -t 0") w
  else if b.USE_DBUS then
    if HasLogind w then
      let c := LogindCheckCapability h (lit "CanPowerOff") w
      if c.1 then
        let w2 := Log_flush (LOG LogLevel.LogInfo (lit "LogindSetPowerState('PowerOff')") c.2)
        let r := LogindSetPowerState h (lit "PowerOff") w2
        (boolToInt r.1, r.2)
      else system h (lit "sudo shutdown -h now") c.2
    else system h (lit "sudo shutdown -h now") w
  else system h (lit "sudo shutdown -h now") w

/-- The function `runRestartCommand`. -/
def runRestartCommand (b : Build) (h : Host) (w : World) : Int × World :=
  if b.WIN32 then system h (lit "shutdown -r -t 0") w
  else if b.USE_DBUS then
    if HasLogind w then
      let c := LogindCheckCapability h (lit "CanReboot") w
      if c.1 then
        let w2 := Log_flush (LOG LogLevel.LogInfo (lit "LogindSetPowerState('Reboot')") c.2)
        let r := LogindSetPowerState h (lit "Reboot") w2
        (boolToInt r.1, r.2)
      else system h (lit "sudo shutdown -r now") c.2
    else system h (lit "sudo shutdown -r now") w
  else system h (lit "sudo shutdown -r now") w

/-- The exception `std::range_error` thrown by a failed conversion. -/
inductive Exception where
  | range_error
deriving DecidableEq, Repr

/-- The function `runSystemCommand`: the status, or the exception that leaves
the function, and the state afterwards. -/
def runSystemCommand (b : Build) (h : Host) (cmd_utf8 : StdString) (w : World) :
    Except Exception Int × World :=
  if b.WIN32 then
    match from_bytes cmd_utf8 with
    | none => (Except.error Exception.range_error, w)
    | some wchar_str =>
      let r := wsystem h (c_str wchar_str) w
      (Except.ok r.1, r.2)
  else
    let r := system h (c_str cmd_utf8) w
    (Except.ok r.1, r.2)

/-! ## Quit-mode bookkeeping -/

/-- The call `SDL_PushEvent`. -/
def SDL_PushEvent (e : SDL_Event) (w : World) : World :=
  { w with sdlQueue := w.sdlQueue ++ [e] }

/-- The function `quitES`. -/
def quitES (mode : QuitMode) (w : World) : Int × World :=
  let w1 := { w with quitMode := mode }
  let quit : SDL_Event := { type := SDL_QUIT }
  (0, SDL_PushEvent quit w1)

/-- The function `touch`; closing the descriptor or stream changes nothing
that the state records. -/
def touch (b : Build) (filename : StdString) (w : World) : World :=
  if b.WIN32 then
    let r := w.fs.fopen_ab (c_str filename)
    { w with fs := r.2, trace := w.trace ++ [Event.fopen (c_str filename)] }
  else
    let r := w.fs.open_creat (c_str filename)
    { w with fs := r.2, trace := w.trace ++ [Event.openCreat (c_str filename)] }

/-- The function `processQuitMode`. -/
def processQuitMode (b : Build) (h : Host) (w : World) : World :=
  match w.quitMode with
  | QuitMode.RESTART =>
    touch b (lit "/tmp/es-restart") (LOG LogLevel.LogInfo (lit "Restarting EmulationStation") w)
  | QuitMode.REBOOT =>
    (runRestartCommand b h
      (touch b (lit "/tmp/es-sysrestart") (LOG LogLevel.LogInfo (lit "Rebooting system") w))).2
  | QuitMode.SHUTDOWN =>
    (runShutdownCommand b h
      (touch b (lit "/tmp/es-shutdown") (LOG LogLevel.LogInfo (lit "Shutting system down") w))).2
  | QuitMode.QUIT => w

/-! ## Reading a trace -/

/-- The paths a trace opens for creation, in order. -/
def touchedPaths : List Event → List CStr
  | [] => []
  | Event.openCreat p :: t => p :: touchedPaths t
  | Event.fopen p :: t => p :: touchedPaths t
  | _ :: t => touchedPaths t

/-- The shell commands a trace runs, in order. -/
def shellCommands : List Event → List (List Nat)
  | [] => []
  | Event.system c :: t => c :: shellCommands t
  | Event.wsystem c :: t => c :: shellCommands t
  | _ :: t => shellCommands t

/-- The D-Bus messages a trace sends, in order. -/
def ipcCalls : List Event → List DBusMessage
  | [] => []
  | Event.dbus m :: t => m :: ipcCalls t
  | _ :: t => ipcCalls t

/-- The event `touch` records for a path in a given build. -/
def touchEvent (b : Build) (p : CStr) : Event :=
  if b.WIN32 then Event.fopen p else Event.openCreat p

/-- The logind method call with the given member and arguments. -/
def logindCall (member : CStr) (args : List DBusArg) : DBusMessage :=
  { destination := LOGIND_DEST, path := LOGIND_PATH, iface := LOGIND_IFACE,
    member := member, args := args }

/-! ## Sample hosts and states -/

/-- A reply whose single argument is the given string. -/
def stringReply (s : CStr) : DBusMessage :=
  { destination := [], path := [], iface := [], member := [], args := [DBusArg.string s] }

/-- A reply without arguments. -/
def emptyReply : DBusMessage :=
  { destination := [], path := [], iface := [], member := [], args := [] }

/-- Reads the leading string argument of a message. -/
def leadingString (m : DBusMessage) : Option CStr :=
  match m.args with
  | DBusArg.string s :: _ => some s
  | _ => none

/-- A host whose logind grants both capabilities and acknowledges actions;
every shell command yields status 7. -/
def hostLogind : Host :=
  { system := fun _ => 7, wsystem := fun _ => 7,
    dbus_send := fun m =>
      if m.args = [] then DBusSendResult.ok (stringReply (lit "yes"))
      else DBusSendResult.ok emptyReply,
    dbus_get_string := leadingString }

/-- A host whose logind grants both capabilities but whose action requests
end in a transport error. -/
def hostActionFails : Host :=
  { system := fun _ => 7, wsystem := fun _ => 7,
    dbus_send := fun m =>
      if m.args = [] then DBusSendResult.ok (stringReply (lit "yes"))
      else DBusSendResult.failed
        (some { name := lit "org.freedesktop.DBus.Error.NoReply", message := lit "timeout" }),
    dbus_get_string := leadingString }

/-- A host on which every bus call ends in a transport error. -/
def hostNoBus : Host :=
  { system := fun _ => 7, wsystem := fun _ => 7,
    dbus_send := fun _ =>
      DBusSendResult.failed
        (some { name := lit "org.freedesktop.DBus.Error.ServiceUnknown", message := [] }),
    dbus_get_string := leadingString }

/-- A file system on which logind runs. -/
def fsLogind : FileSystem :=
  { files := [], dirs := [lit "/run/systemd/seats/", lit "/tmp"], denied := [] }

/-- A file system without logind. -/
def fsPlain : FileSystem :=
  { files := [], dirs := [lit "/tmp"], denied := [] }

/-- A file system without logind on which the reboot and shutdown markers
cannot be created. -/
def fsReadOnly : FileSystem :=
  { files := [], dirs := [lit "/tmp"],
    denied := [lit "/tmp/es-sysrestart", lit "/tmp/es-shutdown"] }

/-- A Unix build with the logind path compiled in. -/
def buildDbus : Build := { WIN32 := false, USE_DBUS := true }

/-- A Unix build without the logind path. -/
def buildPosix : Build := { WIN32 := false, USE_DBUS := false }

/-- A Windows build. -/
def buildWin : Build := { WIN32 := true, USE_DBUS := false }

/-- A state with the given quit mode and file system and nothing recorded. -/
def worldOf (m : QuitMode) (fs : FileSystem) : World :=
  { quitMode := m, fs := fs, sdlQueue := [], log := [], trace := [] }


/-! ## Reading a trace: append lemmas -/

theorem touchedPaths_append (s t : List Event) :
    touchedPaths (s ++ t) = touchedPaths s ++ touchedPaths t := by
  induction s with
  | nil => rfl
  | cons e s ih => cases e <;> simp [touchedPaths, ih]

theorem shellCommands_append (s t : List Event) :
    shellCommands (s ++ t) = shellCommands s ++ shellCommands t := by
  induction s with
  | nil => rfl
  | cons e s ih => cases e <;> simp [shellCommands, ih]

theorem ipcCalls_append (s t : List Event) :
    ipcCalls (s ++ t) = ipcCalls s ++ ipcCalls t := by
  induction s with
  | nil => rfl
  | cons e s ih => cases e <;> simp [ipcCalls, ih]

/-! ## The D-Bus helpers -/

theorem DBusSystemSend_fst (h : Host) (m : DBusMessage) (w : World) :
    (DBusSystemSend h m w).1 = (h.dbus_send m).reply := rfl

theorem DBusSystemSend_trace (h : Host) (m : DBusMessage) (w : World) :
    (DBusSystemSend h m w).2.trace = w.trace ++ [Event.dbus m] := by
  cases hE : (h.dbus_send m).error <;> simp [DBusSystemSend, hE, LOG]

theorem DBusSystemSend_frame (h : Host) (m : DBusMessage) (w : World) :
    (DBusSystemSend h m w).2.fs = w.fs ∧ (DBusSystemSend h m w).2.quitMode = w.quitMode ∧
      (DBusSystemSend h m w).2.sdlQueue = w.sdlQueue := by
  cases hE : (h.dbus_send m).error <;> simp [DBusSystemSend, hE, LOG]

theorem LogindCheckCapability_snd (h : Host) (c : CStr) (w : World) :
    (LogindCheckCapability h c w).2 = (DBusSystemSend h (logindCall c []) w).2 := by
  unfold LogindCheckCapability
  simp only [dbus_message_new_method_call, logindCall]
  split
  · split <;> rfl
  · rfl

theorem LogindCheckCapability_fst (h : Host) (c : CStr) (w : World) :
    (LogindCheckCapability h c w).1 =
      match (h.dbus_send (logindCall c [])).reply with
      | some reply =>
        (match h.dbus_get_string reply with
         | some arg => arg == lit "yes"
         | none => false)
      | none => false := by
  unfold LogindCheckCapability
  simp only [dbus_message_new_method_call, logindCall, DBusSystemSend_fst]
  split
  · split <;> rfl
  · rfl

theorem LogindSetPowerState_fst (h : Host) (s : CStr) (w : World) :
    (LogindSetPowerState h s w).1 =
      (h.dbus_send (logindCall s [DBusArg.boolean false])).reply.isSome := rfl

theorem LogindSetPowerState_snd (h : Host) (s : CStr) (w : World) :
    (LogindSetPowerState h s w).2 =
      (DBusSystemSend h (logindCall s [DBusArg.boolean false]) w).2 := rfl


/-! ## Shutdown and restart: what they return, what they record -/

theorem runShutdownCommand_trace (b : Build) (h : Host) (w : World) :
    (runShutdownCommand b h w).2.trace = w.trace ++
      (if b.WIN32 then [Event.system (lit "shutdown -s -t 0")]
       else if b.USE_DBUS && HasLogind w then
         if (LogindCheckCapability h (lit "CanPowerOff") w).1 then
           [Event.dbus (logindCall (lit "CanPowerOff") []),
            Event.dbus (logindCall (lit "PowerOff") [DBusArg.boolean false])]
         else
           [Event.dbus (logindCall (lit "CanPowerOff") []),
            Event.system (lit "sudo shutdown -h now")]
       else [Event.system (lit "sudo shutdown -h now")]) := by
  unfold runShutdownCommand
  cases b.WIN32 <;> cases b.USE_DBUS <;> cases HasLogind w <;>
    cases hc : (LogindCheckCapability h (lit "CanPowerOff") w).1 <;>
    simp [hc, system, LogindSetPowerState_snd, LogindCheckCapability_snd,
      DBusSystemSend_trace, Log_flush, LOG]

theorem runRestartCommand_trace (b : Build) (h : Host) (w : World) :
    (runRestartCommand b h w).2.trace = w.trace ++
      (if b.WIN32 then [Event.system (lit "shutdown -r -t 0")]
       else if b.USE_DBUS && HasLogind w then
         if (LogindCheckCapability h (lit "CanReboot") w).1 then
           [Event.dbus (logindCall (lit "CanReboot") []),
            Event.dbus (logindCall (lit "Reboot") [DBusArg.boolean false])]
         else
           [Event.dbus (logindCall (lit "CanReboot") []),
            Event.system (lit "sudo shutdown -r now")]
       else [Event.system (lit "sudo shutdown -r now")]) := by
  unfold runRestartCommand
  cases b.WIN32 <;> cases b.USE_DBUS <;> cases HasLogind w <;>
    cases hc : (LogindCheckCapability h (lit "CanReboot") w).1 <;>
    simp [hc, system, LogindSetPowerState_snd, LogindCheckCapability_snd,
      DBusSystemSend_trace, Log_flush, LOG]

theorem runShutdownCommand_fst (b : Build) (h : Host) (w : World) :
    (runShutdownCommand b h w).1 =
      (if b.WIN32 then h.system (lit "shutdown -s -t 0")
       else if b.USE_DBUS && HasLogind w then
         if (LogindCheckCapability h (lit "CanPowerOff") w).1 then
           boolToInt (h.dbus_send (logindCall (lit "PowerOff") [DBusArg.boolean false])).reply.isSome
         else h.system (lit "sudo shutdown -h now")
       else h.system (lit "sudo shutdown -h now")) := by
  unfold runShutdownCommand
  cases b.WIN32 <;> cases b.USE_DBUS <;> cases HasLogind w <;>
    cases hc : (LogindCheckCapability h (lit "CanPowerOff") w).1 <;>
    simp [hc, system, LogindSetPowerState_fst]

theorem runRestartCommand_fst (b : Build) (h : Host) (w : World) :
    (runRestartCommand b h w).1 =
      (if b.WIN32 then h.system (lit "shutdown -r -t 0")
       else if b.USE_DBUS && HasLogind w then
         if (LogindCheckCapability h (lit "CanReboot") w).1 then
           boolToInt (h.dbus_send (logindCall (lit "Reboot") [DBusArg.boolean false])).reply.isSome
         else h.system (lit "sudo shutdown -r now")
       else h.system (lit "sudo shutdown -r now")) := by
  unfold runRestartCommand
  cases b.WIN32 <;> cases b.USE_DBUS <;> cases HasLogind w <;>
    cases hc : (LogindCheckCapability h (lit "CanReboot") w).1 <;>
    simp [hc, system, LogindSetPowerState_fst]

theorem runShutdownCommand_frame (b : Build) (h : Host) (w : World) :
    (runShutdownCommand b h w).2.fs = w.fs ∧
      (runShutdownCommand b h w).2.quitMode = w.quitMode ∧
      (runShutdownCommand b h w).2.sdlQueue = w.sdlQueue := by
  unfold runShutdownCommand
  cases b.WIN32 <;> cases b.USE_DBUS <;> cases HasLogind w <;>
    cases hc : (LogindCheckCapability h (lit "CanPowerOff") w).1 <;>
    simp [hc, system, LogindSetPowerState_snd, LogindCheckCapability_snd,
      DBusSystemSend_frame, Log_flush, LOG]

theorem runRestartCommand_frame (b : Build) (h : Host) (w : World) :
    (runRestartCommand b h w).2.fs = w.fs ∧
      (runRestartCommand b h w).2.quitMode = w.quitMode ∧
      (runRestartCommand b h w).2.sdlQueue = w.sdlQueue := by
  unfold runRestartCommand
  cases b.WIN32 <;> cases b.USE_DBUS <;> cases HasLogind w <;>
    cases hc : (LogindCheckCapability h (lit "CanReboot") w).1 <;>
    simp [hc, system, LogindSetPowerState_snd, LogindCheckCapability_snd,
      DBusSystemSend_frame, Log_flush, LOG]

/-! ## Touch -/

theorem fopen_ab_snd (fs : FileSystem) (p : CStr) :
    (fs.fopen_ab p).2 = (fs.open_creat p).2 := by
  unfold FileSystem.fopen_ab FileSystem.open_creat
  split
  · rfl
  · split <;> rfl

theorem touch_trace (b : Build) (f : StdString) (w : World) :
    (touch b f w).trace = w.trace ++ [touchEvent b (c_str f)] := by
  unfold touch touchEvent
  cases b.WIN32 <;> rfl

theorem touch_fs (b : Build) (f : StdString) (w : World) :
    (touch b f w).fs = (w.fs.open_creat (c_str f)).2 := by
  unfold touch
  cases b.WIN32
  · rfl
  · exact fopen_ab_snd w.fs (c_str f)

theorem touch_frame (b : Build) (f : StdString) (w : World) :
    (touch b f w).quitMode = w.quitMode ∧ (touch b f w).sdlQueue = w.sdlQueue ∧
      (touch b f w).log = w.log := by
  unfold touch
  cases b.WIN32 <;> exact ⟨rfl, rfl, rfl⟩

theorem touchedPaths_touchEvent (b : Build) (p : CStr) :
    touchedPaths [touchEvent b p] = [p] := by
  unfold touchEvent
  cases b.WIN32 <;> rfl

theorem shellCommands_touchEvent (b : Build) (p : CStr) :
    shellCommands [touchEvent b p] = [] := by
  unfold touchEvent
  cases b.WIN32 <;> rfl

theorem ipcCalls_touchEvent (b : Build) (p : CStr) :
    ipcCalls [touchEvent b p] = [] := by
  unfold touchEvent
  cases b.WIN32 <;> rfl

theorem open_creat_dirs (fs : FileSystem) (p : CStr) :
    (fs.open_creat p).2.dirs = fs.dirs := by
  unfold FileSystem.open_creat
  split
  · rfl
  · split <;> rfl

theorem open_creat_isFile_ne (fs : FileSystem) (p q : CStr) (hne : q ≠ p) :
    (fs.open_creat p).2.isFile q = fs.isFile q := by
  unfold FileSystem.open_creat
  split
  · rfl
  · split
    · rfl
    · have hpq : (p == q) = false := by simpa using Ne.symm hne
      simp [FileSystem.isFile, List.any_append, hpq]

/-- Opening a path leaves the existence of every other path as it was. -/
theorem open_creat_access_ne (fs : FileSystem) (p q : CStr) (hne : q ≠ p) :
    (fs.open_creat p).2.access q = fs.access q := by
  unfold FileSystem.access
  rw [open_creat_isFile_ne fs p q hne, open_creat_dirs]

theorem HasLogind_touch (b : Build) (f : StdString) (w : World)
    (hne : lit "/run/systemd/seats/" ≠ c_str f) :
    HasLogind (touch b f w) = HasLogind w := by
  unfold HasLogind
  rw [touch_fs, open_creat_access_ne _ _ _ hne]

theorem HasLogind_LOG (l : LogLevel) (t : List Nat) (w : World) :
    HasLogind (LOG l t w) = HasLogind w := rfl


/-! ## Derived facts about the run commands -/

theorem runShutdownCommand_touched (b : Build) (h : Host) (w : World) :
    touchedPaths (runShutdownCommand b h w).2.trace = touchedPaths w.trace := by
  rw [runShutdownCommand_trace, touchedPaths_append]
  split_ifs <;> simp [touchedPaths]

theorem runRestartCommand_touched (b : Build) (h : Host) (w : World) :
    touchedPaths (runRestartCommand b h w).2.trace = touchedPaths w.trace := by
  rw [runRestartCommand_trace, touchedPaths_append]
  split_ifs <;> simp [touchedPaths]

theorem c_str_restart : c_str (lit "/tmp/es-restart") = lit "/tmp/es-restart" := by decide

theorem c_str_sysrestart : c_str (lit "/tmp/es-sysrestart") = lit "/tmp/es-sysrestart" := by
  decide

theorem c_str_shutdown : c_str (lit "/tmp/es-shutdown") = lit "/tmp/es-shutdown" := by decide

theorem processQuitMode_restart (b : Build) (h : Host) (w : World)
    (hm : w.quitMode = QuitMode.RESTART) :
    processQuitMode b h w =
      touch b (lit "/tmp/es-restart")
        (LOG LogLevel.LogInfo (lit "Restarting EmulationStation") w) := by
  unfold processQuitMode
  rw [hm]

theorem processQuitMode_reboot (b : Build) (h : Host) (w : World)
    (hm : w.quitMode = QuitMode.REBOOT) :
    processQuitMode b h w =
      (runRestartCommand b h (touch b (lit "/tmp/es-sysrestart")
        (LOG LogLevel.LogInfo (lit "Rebooting system") w))).2 := by
  unfold processQuitMode
  rw [hm]

theorem processQuitMode_shutdown (b : Build) (h : Host) (w : World)
    (hm : w.quitMode = QuitMode.SHUTDOWN) :
    processQuitMode b h w =
      (runShutdownCommand b h (touch b (lit "/tmp/es-shutdown")
        (LOG LogLevel.LogInfo (lit "Shutting system down") w))).2 := by
  unfold processQuitMode
  rw [hm]

theorem processQuitMode_quit (b : Build) (h : Host) (w : World)
    (hm : w.quitMode = QuitMode.QUIT) : processQuitMode b h w = w := by
  unfold processQuitMode
  rw [hm]

/-! ## Claims -/

/-- C1: for every quit mode `m` and every initial state, `quitES m` followed by
`processQuitMode` opens exactly the marker path mapped to `m` (RESTART:
`/tmp/es-restart`, REBOOT: `/tmp/es-sysrestart`, SHUTDOWN: `/tmp/es-shutdown`)
and no other path, and opens no path at all for QUIT; the file system
afterwards is the initial one after that single open. -/
theorem quitES_processQuitMode_touches (b : Build) (h : Host) (w : World) (m : QuitMode) :
    touchedPaths (processQuitMode b h (quitES m w).2).trace =
        touchedPaths w.trace ++
          (match m with
           | QuitMode.QUIT => []
           | QuitMode.RESTART => [lit "/tmp/es-restart"]
           | QuitMode.REBOOT => [lit "/tmp/es-sysrestart"]
           | QuitMode.SHUTDOWN => [lit "/tmp/es-shutdown"]) ∧
      (processQuitMode b h (quitES m w).2).fs =
        (match m with
         | QuitMode.QUIT => w.fs
         | QuitMode.RESTART => (w.fs.open_creat (lit "/tmp/es-restart")).2
         | QuitMode.REBOOT => (w.fs.open_creat (lit "/tmp/es-sysrestart")).2
         | QuitMode.SHUTDOWN => (w.fs.open_creat (lit "/tmp/es-shutdown")).2) := by
  cases m
  · rw [processQuitMode_quit b h _ rfl]
    exact ⟨by simp [quitES, SDL_PushEvent], rfl⟩
  · rw [processQuitMode_restart b h _ rfl]
    refine ⟨?_, ?_⟩
    · rw [touch_trace, touchedPaths_append, touchedPaths_touchEvent, c_str_restart]
      rfl
    · rw [touch_fs, c_str_restart]
      rfl
  · rw [processQuitMode_reboot b h _ rfl]
    refine ⟨?_, ?_⟩
    · rw [runRestartCommand_touched, touch_trace, touchedPaths_append,
        touchedPaths_touchEvent, c_str_sysrestart]
      rfl
    · rw [(runRestartCommand_frame b h _).1, touch_fs, c_str_sysrestart]
      rfl
  · rw [processQuitMode_shutdown b h _ rfl]
    refine ⟨?_, ?_⟩
    · rw [runShutdownCommand_touched, touch_trace, touchedPaths_append,
        touchedPaths_touchEvent, c_str_shutdown]
      rfl
    · rw [(runShutdownCommand_frame b h _).1, touch_fs, c_str_shutdown]
      rfl

/-- C6: for every quit mode `m` and every prior state, `quitES m` returns 0,
leaves the quit-mode slot equal to `m` (so after a second call the slot holds
the mode of that last call), appends exactly one `SDL_QUIT` event to the SDL
queue, and makes no OS-level call itself: the trace (file opens, shell
commands, bus messages), the file system and the log are unchanged. -/
theorem quitES_spec (m : QuitMode) (w : World) :
    (quitES m w).1 = 0 ∧
      (quitES m w).2.quitMode = m ∧
      (∀ m2 : QuitMode, (quitES m2 (quitES m w).2).2.quitMode = m2) ∧
      (quitES m w).2.sdlQueue = w.sdlQueue ++ [{ type := SDL_QUIT }] ∧
      (quitES m w).2.trace = w.trace ∧
      (quitES m w).2.fs = w.fs ∧
      (quitES m w).2.log = w.log :=
  ⟨rfl, rfl, fun _ => rfl, rfl, rfl, rfl, rfl⟩


/-- C7: when the stored quit mode is QUIT or RESTART, `processQuitMode` runs no
shell command and sends no bus message, whatever the host does, and leaves the
quit-mode slot and the SDL queue alone.  For QUIT, which is also the value of
the slot in the initial state, it returns the state unchanged.  For RESTART it
opens `/tmp/es-restart` and does nothing else to the outside world; the one
other change is the line "Restarting EmulationStation" in the log. -/
theorem processQuitMode_quit_restart (b : Build) (h : Host) (w : World)
    (hm : w.quitMode = QuitMode.QUIT ∨ w.quitMode = QuitMode.RESTART) :
    shellCommands (processQuitMode b h w).trace = shellCommands w.trace ∧
      ipcCalls (processQuitMode b h w).trace = ipcCalls w.trace ∧
      (processQuitMode b h w).quitMode = w.quitMode ∧
      (processQuitMode b h w).sdlQueue = w.sdlQueue ∧
      (w.quitMode = QuitMode.QUIT → processQuitMode b h w = w) ∧
      (World.init w.fs).quitMode = QuitMode.QUIT ∧
      processQuitMode b h (World.init w.fs) = World.init w.fs ∧
      (w.quitMode = QuitMode.RESTART →
        (processQuitMode b h w).trace =
            w.trace ++ [touchEvent b (lit "/tmp/es-restart")] ∧
          (processQuitMode b h w).fs = (w.fs.open_creat (lit "/tmp/es-restart")).2 ∧
          (processQuitMode b h w).log =
            w.log ++ [LogOp.write LogLevel.LogInfo (lit "Restarting EmulationStation")]) := by
  have hinit : processQuitMode b h (World.init w.fs) = World.init w.fs :=
    processQuitMode_quit b h _ rfl
  rcases hm with hq | hr
  · rw [processQuitMode_quit b h w hq]
    refine ⟨rfl, rfl, rfl, rfl, fun _ => rfl, rfl, hinit, ?_⟩
    intro hr
    rw [hq] at hr
    cases hr
  · have htr : (processQuitMode b h w).trace =
        w.trace ++ [touchEvent b (lit "/tmp/es-restart")] := by
      rw [processQuitMode_restart b h w hr, touch_trace, c_str_restart]
      rfl
    have hfr := touch_frame b (lit "/tmp/es-restart")
      (LOG LogLevel.LogInfo (lit "Restarting EmulationStation") w)
    refine ⟨?_, ?_, ?_, ?_, ?_, rfl, hinit, fun _ => ⟨htr, ?_, ?_⟩⟩
    · rw [htr, shellCommands_append, shellCommands_touchEvent, List.append_nil]
    · rw [htr, ipcCalls_append, ipcCalls_touchEvent, List.append_nil]
    · rw [processQuitMode_restart b h w hr, hfr.1]
      rfl
    · rw [processQuitMode_restart b h w hr, hfr.2.1]
      rfl
    · intro hq
      rw [hr] at hq
      cases hq
    · rw [processQuitMode_restart b h w hr, touch_fs, c_str_restart]
      rfl
    · rw [processQuitMode_restart b h w hr, hfr.2.2]
      rfl

/-- Witness for C7: a RESTART on a host with a running logind opens the marker
and nothing else. -/
theorem processQuitMode_quit_restart_witness :
    (worldOf QuitMode.RESTART fsLogind).quitMode = QuitMode.RESTART ∧
      (processQuitMode buildDbus hostLogind (worldOf QuitMode.RESTART fsLogind)).trace =
        [Event.openCreat (lit "/tmp/es-restart")] :=
  ⟨rfl, ((processQuitMode_quit_restart buildDbus hostLogind
    (worldOf QuitMode.RESTART fsLogind) (Or.inr rfl)).2.2.2.2.2.2.2 rfl).1⟩

/-- C2: in a Unix build with the logind path compiled in, `runShutdownCommand`
(resp. `runRestartCommand`) sends the capability query `CanPowerOff` (resp.
`CanReboot`) exactly when `/run/systemd/seats/` exists; it sends the action
`PowerOff` (resp. `Reboot`) and runs no shell command exactly when the
directory exists and the query returns true, and returns the action's result;
otherwise it runs the one shell command `sudo shutdown -h now` (resp.
`sudo shutdown -r now`) and returns its status.  Without the logind path the
shell command is always used, and on Windows it is `shutdown -s -t 0` (resp.
`shutdown -r -t 0`). -/
theorem runShutdownCommand_runRestartCommand_dispatch (b : Build) (h : Host) (w : World) :
    (runShutdownCommand b h w).2.trace = w.trace ++
        (if b.WIN32 then [Event.system (lit "shutdown -s -t 0")]
         else if b.USE_DBUS then
           if HasLogind w then
             if (LogindCheckCapability h (lit "CanPowerOff") w).1 then
               [Event.dbus (logindCall (lit "CanPowerOff") []),
                Event.dbus (logindCall (lit "PowerOff") [DBusArg.boolean false])]
             else
               [Event.dbus (logindCall (lit "CanPowerOff") []),
                Event.system (lit "sudo shutdown -h now")]
           else [Event.system (lit "sudo shutdown -h now")]
         else [Event.system (lit "sudo shutdown -h now")]) ∧
      (runShutdownCommand b h w).1 =
        (if b.WIN32 then h.system (lit "shutdown -s -t 0")
         else if b.USE_DBUS then
           if HasLogind w then
             if (LogindCheckCapability h (lit "CanPowerOff") w).1 then
               boolToInt (LogindSetPowerState h (lit "PowerOff") w).1
             else h.system (lit "sudo shutdown -h now")
           else h.system (lit "sudo shutdown -h now")
         else h.system (lit "sudo shutdown -h now")) ∧
      (runRestartCommand b h w).2.trace = w.trace ++
        (if b.WIN32 then [Event.system (lit "shutdown -r -t 0")]
         else if b.USE_DBUS then
           if HasLogind w then
             if (LogindCheckCapability h (lit "CanReboot") w).1 then
               [Event.dbus (logindCall (lit "CanReboot") []),
                Event.dbus (logindCall (lit "Reboot") [DBusArg.boolean false])]
             else
               [Event.dbus (logindCall (lit "CanReboot") []),
                Event.system (lit "sudo shutdown -r now")]
           else [Event.system (lit "sudo shutdown -r now")]
         else [Event.system (lit "sudo shutdown -r now")]) ∧
      (runRestartCommand b h w).1 =
        (if b.WIN32 then h.system (lit "shutdown -r -t 0")
         else if b.USE_DBUS then
           if HasLogind w then
             if (LogindCheckCapability h (lit "CanReboot") w).1 then
               boolToInt (LogindSetPowerState h (lit "Reboot") w).1
             else h.system (lit "sudo shutdown -r now")
           else h.system (lit "sudo shutdown -r now")
         else h.system (lit "sudo shutdown -r now")) ∧
      (HasLogind w = true ↔ w.fs.access (lit "/run/systemd/seats/") ≥ 0) ∧
      (HasLogind w = true ↔
        (lit "/run/systemd/seats/" ∈ w.fs.dirs ∨
          w.fs.isFile (lit "/run/systemd/seats/") = true)) := by
  refine ⟨?_, ?_, ?_, ?_, ?_, ?_⟩
  · rw [runShutdownCommand_trace]
    cases b.WIN32 <;> cases b.USE_DBUS <;> cases HasLogind w <;> simp
  · rw [runShutdownCommand_fst, LogindSetPowerState_fst]
    cases b.WIN32 <;> cases b.USE_DBUS <;> cases HasLogind w <;> simp
  · rw [runRestartCommand_trace]
    cases b.WIN32 <;> cases b.USE_DBUS <;> cases HasLogind w <;> simp
  · rw [runRestartCommand_fst, LogindSetPowerState_fst]
    cases b.WIN32 <;> cases b.USE_DBUS <;> cases HasLogind w <;> simp
  · simp [HasLogind]
  · unfold HasLogind FileSystem.access
    by_cases hx : (w.fs.isFile (lit "/run/systemd/seats/") ||
        w.fs.dirs.contains (lit "/run/systemd/seats/")) = true
    · rw [if_pos hx]
      simp only [ge_iff_le, le_refl, decide_True, true_iff]
      simp at hx
      tauto
    · rw [if_neg hx]
      simp at hx
      simp [hx.1, hx.2]

/-- C3: `LogindCheckCapability` returns true if and only if the bus call
returned a reply, reading the reply as one string succeeded, and that string
is exactly "yes".  It returns false when no reply came back, with or without
a transport error, when the reply does not read as a string, and for every
string other than "yes", such as "no", "challenge", "Yes" and "yes ". -/
theorem LogindCheckCapability_iff (h : Host) (capability : CStr) (w : World) :
    ((LogindCheckCapability h capability w).1 = true ↔
        ∃ reply, h.dbus_send (logindCall capability []) = DBusSendResult.ok reply ∧
          h.dbus_get_string reply = some (lit "yes")) ∧
      (∀ e, h.dbus_send (logindCall capability []) = DBusSendResult.failed e →
        (LogindCheckCapability h capability w).1 = false) ∧
      (∀ reply, h.dbus_send (logindCall capability []) = DBusSendResult.ok reply →
        h.dbus_get_string reply = none →
        (LogindCheckCapability h capability w).1 = false) ∧
      (∀ reply s, h.dbus_send (logindCall capability []) = DBusSendResult.ok reply →
        h.dbus_get_string reply = some s → s ≠ lit "yes" →
        (LogindCheckCapability h capability w).1 = false) ∧
      lit "no" ≠ lit "yes" ∧ lit "challenge" ≠ lit "yes" ∧
      lit "Yes" ≠ lit "yes" ∧ lit "yes " ≠ lit "yes" := by
  rw [LogindCheckCapability_fst]
  refine ⟨?_, ?_, ?_, ?_, by decide, by decide, by decide, by decide⟩
  · cases hs : h.dbus_send (logindCall capability []) with
    | ok reply =>
      cases hg : h.dbus_get_string reply with
      | none => simp [DBusSendResult.reply, hg]
      | some s => simp [DBusSendResult.reply, hg]
    | failed e => simp [DBusSendResult.reply]
  · intro e he
    simp [he, DBusSendResult.reply]
  · intro reply hr hg
    simp [hr, DBusSendResult.reply, hg]
  · intro reply s hr hg hne
    simp [hr, DBusSendResult.reply, hg, hne]

/-- Witness for C3: on a host whose logind answers "yes" the function returns
true, through the reply and the string read from it. -/
theorem LogindCheckCapability_iff_witness :
    (LogindCheckCapability hostLogind (lit "CanPowerOff") (World.init fsLogind)).1 = true :=
  (LogindCheckCapability_iff hostLogind (lit "CanPowerOff") (World.init fsLogind)).1.2
    ⟨stringReply (lit "yes"), rfl, rfl⟩

/-- C8: `LogindSetPowerState state` sends one method call named `state` whose
argument list is exactly one boolean equal to false, and returns true if and
only if a reply came back.  When `runShutdownCommand` or `runRestartCommand`
takes the bus path (Unix build with logind compiled in, directory present,
capability granted) its result is that boolean as an integer: 1 when a reply
came back, 0 when none did, and no other value. -/
theorem LogindSetPowerState_spec (b : Build) (h : Host) (state : CStr) (w : World) :
    (LogindSetPowerState h state w).2.trace =
        w.trace ++ [Event.dbus (logindCall state [DBusArg.boolean false])] ∧
      ((LogindSetPowerState h state w).1 = true ↔
        ∃ reply, h.dbus_send (logindCall state [DBusArg.boolean false]) =
          DBusSendResult.ok reply) ∧
      (b.WIN32 = false → b.USE_DBUS = true → HasLogind w = true →
        (LogindCheckCapability h (lit "CanPowerOff") w).1 = true →
        (runShutdownCommand b h w).1 =
            (if (h.dbus_send (logindCall (lit "PowerOff") [DBusArg.boolean false])).reply.isSome
             then 1 else 0) ∧
          ((runShutdownCommand b h w).1 = 1 ∨ (runShutdownCommand b h w).1 = 0)) ∧
      (b.WIN32 = false → b.USE_DBUS = true → HasLogind w = true →
        (LogindCheckCapability h (lit "CanReboot") w).1 = true →
        (runRestartCommand b h w).1 =
            (if (h.dbus_send (logindCall (lit "Reboot") [DBusArg.boolean false])).reply.isSome
             then 1 else 0) ∧
          ((runRestartCommand b h w).1 = 1 ∨ (runRestartCommand b h w).1 = 0)) := by
  refine ⟨?_, ?_, ?_, ?_⟩
  · rw [LogindSetPowerState_snd, DBusSystemSend_trace]
  · rw [LogindSetPowerState_fst]
    cases h.dbus_send (logindCall state [DBusArg.boolean false]) <;>
      simp [DBusSendResult.reply]
  · intro hw hd hl hc
    rw [runShutdownCommand_fst]
    simp only [hw, hd, hl, hc, boolToInt]
    cases (h.dbus_send (logindCall (lit "PowerOff") [DBusArg.boolean false])).reply.isSome <;>
      simp
  · intro hw hd hl hc
    rw [runRestartCommand_fst]
    simp only [hw, hd, hl, hc, boolToInt]
    cases (h.dbus_send (logindCall (lit "Reboot") [DBusArg.boolean false])).reply.isSome <;>
      simp

/-- Witness for C8: with logind running and granting the capability, the
shutdown through the bus returns 1 when the action is acknowledged. -/
theorem LogindSetPowerState_spec_witness :
    (runShutdownCommand buildDbus hostLogind (World.init fsLogind)).1 = 1 :=
  ((LogindSetPowerState_spec buildDbus hostLogind [] (World.init fsLogind)).2.2.1
    rfl rfl (by decide) (by decide)).1


/-- C4, counterexample: logind runs and grants `CanPowerOff`, the `PowerOff`
request ends in a transport error without a reply, and `runShutdownCommand`
returns 0 after the two bus calls without running any shell command. -/
theorem runShutdownCommand_action_failure_no_fallback :
    HasLogind (World.init fsLogind) = true ∧
      (hostActionFails.dbus_send (logindCall (lit "PowerOff") [DBusArg.boolean false])).reply
        = none ∧
      (hostActionFails.dbus_send (logindCall (lit "PowerOff") [DBusArg.boolean false])).error
        ≠ none ∧
      (runShutdownCommand buildDbus hostActionFails (World.init fsLogind)).2.trace =
        [Event.dbus (logindCall (lit "CanPowerOff") []),
         Event.dbus (logindCall (lit "PowerOff") [DBusArg.boolean false])] ∧
      Event.system (lit "sudo shutdown -h now") ∉
        (runShutdownCommand buildDbus hostActionFails (World.init fsLogind)).2.trace ∧
      shellCommands (runShutdownCommand buildDbus hostActionFails (World.init fsLogind)).2.trace
        = [] ∧
      (runShutdownCommand buildDbus hostActionFails (World.init fsLogind)).1 = 0 := by
  decide

/-- C4, amended: in a Unix build with the logind path compiled in, whenever the
capability directory is missing, or the capability query (`CanPowerOff`, resp.
`CanReboot`) comes back without a reply (transport error or not),
`runShutdownCommand` (resp. `runRestartCommand`) runs the fallback shell
command `sudo shutdown -h now` (resp. `sudo shutdown -r now`) and returns its
status.  When the capability is granted and the action request (`PowerOff`,
resp. `Reboot`) comes back without a reply, no shell command is run and the
function returns 0.  The functions are total: nothing is raised. -/
theorem run_commands_fallback_on_query_failure (b : Build) (h : Host) (w : World)
    (hw : b.WIN32 = false) (hd : b.USE_DBUS = true) :
    (HasLogind w = false →
        (runShutdownCommand b h w).2.trace =
            w.trace ++ [Event.system (lit "sudo shutdown -h now")] ∧
          (runShutdownCommand b h w).1 = h.system (lit "sudo shutdown -h now")) ∧
      (HasLogind w = true →
        (h.dbus_send (logindCall (lit "CanPowerOff") [])).reply = none →
        (runShutdownCommand b h w).2.trace =
            w.trace ++ [Event.dbus (logindCall (lit "CanPowerOff") []),
              Event.system (lit "sudo shutdown -h now")] ∧
          (runShutdownCommand b h w).1 = h.system (lit "sudo shutdown -h now")) ∧
      (HasLogind w = true → (LogindCheckCapability h (lit "CanPowerOff") w).1 = true →
        (h.dbus_send (logindCall (lit "PowerOff") [DBusArg.boolean false])).reply = none →
        shellCommands (runShutdownCommand b h w).2.trace = shellCommands w.trace ∧
          (runShutdownCommand b h w).1 = 0) ∧
      (HasLogind w = false →
        (runRestartCommand b h w).2.trace =
            w.trace ++ [Event.system (lit "sudo shutdown -r now")] ∧
          (runRestartCommand b h w).1 = h.system (lit "sudo shutdown -r now")) ∧
      (HasLogind w = true →
        (h.dbus_send (logindCall (lit "CanReboot") [])).reply = none →
        (runRestartCommand b h w).2.trace =
            w.trace ++ [Event.dbus (logindCall (lit "CanReboot") []),
              Event.system (lit "sudo shutdown -r now")] ∧
          (runRestartCommand b h w).1 = h.system (lit "sudo shutdown -r now")) ∧
      (HasLogind w = true → (LogindCheckCapability h (lit "CanReboot") w).1 = true →
        (h.dbus_send (logindCall (lit "Reboot") [DBusArg.boolean false])).reply = none →
        shellCommands (runRestartCommand b h w).2.trace = shellCommands w.trace ∧
          (runRestartCommand b h w).1 = 0) := by
  refine ⟨?_, ?_, ?_, ?_, ?_, ?_⟩
  · intro hl
    rw [runShutdownCommand_trace, runShutdownCommand_fst]
    simp [hw, hd, hl]
  · intro hl hr
    have hc : (LogindCheckCapability h (lit "CanPowerOff") w).1 = false := by
      rw [LogindCheckCapability_fst, hr]
    rw [runShutdownCommand_trace, runShutdownCommand_fst]
    simp [hw, hd, hl, hc]
  · intro hl hc hr
    rw [runShutdownCommand_trace, runShutdownCommand_fst, shellCommands_append]
    simp [hw, hd, hl, hc, hr, shellCommands, boolToInt]
  · intro hl
    rw [runRestartCommand_trace, runRestartCommand_fst]
    simp [hw, hd, hl]
  · intro hl hr
    have hc : (LogindCheckCapability h (lit "CanReboot") w).1 = false := by
      rw [LogindCheckCapability_fst, hr]
    rw [runRestartCommand_trace, runRestartCommand_fst]
    simp [hw, hd, hl, hc]
  · intro hl hc hr
    rw [runRestartCommand_trace, runRestartCommand_fst, shellCommands_append]
    simp [hw, hd, hl, hc, hr, shellCommands, boolToInt]

/-- Witness for the amended C4: with logind running but the bus unreachable,
the shutdown falls back to the shell after the failed query. -/
theorem run_commands_fallback_on_query_failure_witness :
    (runShutdownCommand buildDbus hostNoBus (World.init fsLogind)).2.trace =
        [Event.dbus (logindCall (lit "CanPowerOff") []),
         Event.system (lit "sudo shutdown -h now")] ∧
      (runShutdownCommand buildDbus hostNoBus (World.init fsLogind)).1 = 7 :=
  (run_commands_fallback_on_query_failure buildDbus hostNoBus (World.init fsLogind)
    rfl rfl).2.1 (by decide) rfl


/-! ## The run commands after a touch -/

theorem LogindCheckCapability_fst_world (h : Host) (c : CStr) (w w2 : World) :
    (LogindCheckCapability h c w).1 = (LogindCheckCapability h c w2).1 := by
  rw [LogindCheckCapability_fst, LogindCheckCapability_fst]

theorem HasLogind_touch_sysrestart (b : Build) (l : LogLevel) (t : List Nat) (w : World) :
    HasLogind (touch b (lit "/tmp/es-sysrestart") (LOG l t w)) = HasLogind w := by
  rw [HasLogind_touch _ _ _ (by decide), HasLogind_LOG]

theorem HasLogind_touch_shutdown (b : Build) (l : LogLevel) (t : List Nat) (w : World) :
    HasLogind (touch b (lit "/tmp/es-shutdown") (LOG l t w)) = HasLogind w := by
  rw [HasLogind_touch _ _ _ (by decide), HasLogind_LOG]

/-- The events of a REBOOT: the touch, then what `runRestartCommand` issues. -/
theorem processQuitMode_reboot_trace (b : Build) (h : Host) (w : World)
    (hm : w.quitMode = QuitMode.REBOOT) (E : List Event)
    (hE : (runRestartCommand b h w).2.trace = w.trace ++ E) :
    (processQuitMode b h w).trace =
      w.trace ++ touchEvent b (lit "/tmp/es-sysrestart") :: E := by
  rw [runRestartCommand_trace] at hE
  have hE2 := List.append_cancel_left hE
  rw [processQuitMode_reboot b h w hm, runRestartCommand_trace, touch_trace,
    HasLogind_touch_sysrestart, c_str_sysrestart,
    LogindCheckCapability_fst_world h (lit "CanReboot") _ w, hE2]
  simp [LOG]

/-- The events of a SHUTDOWN: the touch, then what `runShutdownCommand` issues. -/
theorem processQuitMode_shutdown_trace (b : Build) (h : Host) (w : World)
    (hm : w.quitMode = QuitMode.SHUTDOWN) (E : List Event)
    (hE : (runShutdownCommand b h w).2.trace = w.trace ++ E) :
    (processQuitMode b h w).trace =
      w.trace ++ touchEvent b (lit "/tmp/es-shutdown") :: E := by
  rw [runShutdownCommand_trace] at hE
  have hE2 := List.append_cancel_left hE
  rw [processQuitMode_shutdown b h w hm, runShutdownCommand_trace, touch_trace,
    HasLogind_touch_shutdown, c_str_shutdown,
    LogindCheckCapability_fst_world h (lit "CanPowerOff") _ w, hE2]
  simp [LOG]

/-- What the run commands issue never opens a path and is never empty. -/
theorem runShutdownCommand_events (b : Build) (h : Host) (w : World) :
    ∃ E, (runShutdownCommand b h w).2.trace = w.trace ++ E ∧ touchedPaths E = [] ∧ E ≠ [] := by
  refine ⟨_, runShutdownCommand_trace b h w, ?_, ?_⟩ <;> split_ifs <;> simp [touchedPaths]

theorem runRestartCommand_events (b : Build) (h : Host) (w : World) :
    ∃ E, (runRestartCommand b h w).2.trace = w.trace ++ E ∧ touchedPaths E = [] ∧ E ≠ [] := by
  refine ⟨_, runRestartCommand_trace b h w, ?_, ?_⟩ <;> split_ifs <;> simp [touchedPaths]

/-- C5: in a Unix build, when the stored quit mode is SHUTDOWN and the
capability directory is absent, `processQuitMode` first opens
`/tmp/es-shutdown` and then runs `sudo shutdown -h now`, once, with no other
file open, shell command or bus message in between or after, and the status
of that command is what `runShutdownCommand` returns.  The same holds for REBOOT with
`/tmp/es-sysrestart` and `sudo shutdown -r now`.  For both modes, in every
build and state, the marker is opened before anything the run command
issues. -/
theorem processQuitMode_marker_then_command (b : Build) (h : Host) (w : World) :
    (b.WIN32 = false → HasLogind w = false → w.quitMode = QuitMode.SHUTDOWN →
        (processQuitMode b h w).trace =
            w.trace ++ [Event.openCreat (lit "/tmp/es-shutdown"),
              Event.system (lit "sudo shutdown -h now")] ∧
          processQuitMode b h w =
            (runShutdownCommand b h (touch b (lit "/tmp/es-shutdown")
              (LOG LogLevel.LogInfo (lit "Shutting system down") w))).2 ∧
          (runShutdownCommand b h (touch b (lit "/tmp/es-shutdown")
              (LOG LogLevel.LogInfo (lit "Shutting system down") w))).1 =
            h.system (lit "sudo shutdown -h now")) ∧
      (b.WIN32 = false → HasLogind w = false → w.quitMode = QuitMode.REBOOT →
        (processQuitMode b h w).trace =
            w.trace ++ [Event.openCreat (lit "/tmp/es-sysrestart"),
              Event.system (lit "sudo shutdown -r now")] ∧
          processQuitMode b h w =
            (runRestartCommand b h (touch b (lit "/tmp/es-sysrestart")
              (LOG LogLevel.LogInfo (lit "Rebooting system") w))).2 ∧
          (runRestartCommand b h (touch b (lit "/tmp/es-sysrestart")
              (LOG LogLevel.LogInfo (lit "Rebooting system") w))).1 =
            h.system (lit "sudo shutdown -r now")) ∧
      (w.quitMode = QuitMode.SHUTDOWN →
        ∃ E, (processQuitMode b h w).trace =
            w.trace ++ touchEvent b (lit "/tmp/es-shutdown") :: E ∧
          touchedPaths E = [] ∧ E ≠ []) ∧
      (w.quitMode = QuitMode.REBOOT →
        ∃ E, (processQuitMode b h w).trace =
            w.trace ++ touchEvent b (lit "/tmp/es-sysrestart") :: E ∧
          touchedPaths E = [] ∧ E ≠ []) := by
  refine ⟨?_, ?_, ?_, ?_⟩
  · intro hw hl hm
    refine ⟨?_, processQuitMode_shutdown b h w hm, ?_⟩
    · rw [processQuitMode_shutdown_trace b h w hm [Event.system (lit "sudo shutdown -h now")]]
      · simp [touchEvent, hw]
      · rw [runShutdownCommand_trace]
        simp [hw, hl]
    · rw [runShutdownCommand_fst, HasLogind_touch_shutdown]
      simp [hw, hl]
  · intro hw hl hm
    refine ⟨?_, processQuitMode_reboot b h w hm, ?_⟩
    · rw [processQuitMode_reboot_trace b h w hm [Event.system (lit "sudo shutdown -r now")]]
      · simp [touchEvent, hw]
      · rw [runRestartCommand_trace]
        simp [hw, hl]
    · rw [runRestartCommand_fst, HasLogind_touch_sysrestart]
      simp [hw, hl]
  · intro hm
    obtain ⟨E, hE, ht, hn⟩ := runShutdownCommand_events b h w
    exact ⟨E, processQuitMode_shutdown_trace b h w hm E hE, ht, hn⟩
  · intro hm
    obtain ⟨E, hE, ht, hn⟩ := runRestartCommand_events b h w
    exact ⟨E, processQuitMode_reboot_trace b h w hm E hE, ht, hn⟩

/-- Witness for C5: a SHUTDOWN on a Unix host without logind opens the marker
and then runs the shell command. -/
theorem processQuitMode_marker_then_command_witness :
    (processQuitMode buildDbus hostLogind (worldOf QuitMode.SHUTDOWN fsPlain)).trace =
      [Event.openCreat (lit "/tmp/es-shutdown"), Event.system (lit "sudo shutdown -h now")] :=
  ((processQuitMode_marker_then_command buildDbus hostLogind
    (worldOf QuitMode.SHUTDOWN fsPlain)).1 rfl (by decide) rfl).1


/-! ## C strings -/

theorem c_str_eq_self (s : List Nat) (h0 : 0 ∉ s) : c_str s = s := by
  unfold c_str
  rw [List.takeWhile_eq_self_iff]
  intro x hx
  have hne : x ≠ 0 := fun hx0 => h0 (hx0 ▸ hx)
  simpa using hne

theorem c_str_no_nul (s : List Nat) : 0 ∉ c_str s := by
  unfold c_str
  intro hmem
  have := List.mem_takeWhile_imp hmem
  simp at this

/-! ## File content under touch -/

theorem open_creat_content (fs : FileSystem) (p q : CStr) (hq : fs.isFile q = true) :
    (fs.open_creat p).2.content q = fs.content q := by
  unfold FileSystem.open_creat
  split
  · rfl
  · split
    · rfl
    · unfold FileSystem.isFile at hq
      obtain ⟨e, he, hb⟩ := List.any_eq_true.mp hq
      have hsome : (fs.files.find? (fun e => e.1 == q)).isSome = true := by
        rw [List.find?_isSome]
        exact ⟨e, he, hb⟩
      obtain ⟨x, hx⟩ := Option.isSome_iff_exists.mp hsome
      simp [FileSystem.content, List.find?_append, hx]

/-! ## The UTF-8 converter -/

theorem isCont_iff (b : Nat) : isCont b = true ↔ 0x80 ≤ b ∧ b < 0xC0 := by
  simp [isCont]

theorem isScalar_iff (c : Nat) :
    isScalar c = true ↔ (c < 0xD800 ∨ (0xE000 ≤ c ∧ c < 0x110000)) := by
  simp [isScalar]

theorem decodeOne_encode (c : Nat) (hs : isScalar c = true) (rest : List Nat) :
    decodeOne (utf8EncodeChar c ++ rest) = some (c, rest) := by
  have hs2 := (isScalar_iff c).mp hs
  unfold utf8EncodeChar
  by_cases h1 : c < 0x80
  · rw [if_pos h1]
    simp [decodeOne, h1]
  · rw [if_neg h1]
    by_cases h2 : c < 0x800
    · rw [if_pos h2]
      have e : (0xC0 + c / 64 - 0xC0) * 64 + (0x80 + c % 64 - 0x80) = c := by omega
      have hc : isCont (0x80 + c % 64) = true := (isCont_iff _).mpr (by omega)
      have g1 : ¬ (0xC0 + c / 64 < 0x80) := by omega
      have g2 : ¬ (0xC0 + c / 64 < 0xC0) := by omega
      have g3 : 0xC0 + c / 64 < 0xE0 := by omega
      have g4 : 0x80 ≤ c := by omega
      simp only [List.cons_append, List.nil_append, decodeOne, if_neg g1, if_neg g2, if_pos g3,
        e, hc, Bool.true_and, decide_eq_true_eq, if_pos g4]
    · rw [if_neg h2]
      by_cases h3 : c < 0x10000
      · rw [if_pos h3]
        have e : (0xE0 + c / 4096 - 0xE0) * 4096 + (0x80 + c / 64 % 64 - 0x80) * 64 +
            (0x80 + c % 64 - 0x80) = c := by omega
        have hc1 : isCont (0x80 + c / 64 % 64) = true := (isCont_iff _).mpr (by omega)
        have hc2 : isCont (0x80 + c % 64) = true := (isCont_iff _).mpr (by omega)
        have g1 : ¬ (0xE0 + c / 4096 < 0x80) := by omega
        have g2 : ¬ (0xE0 + c / 4096 < 0xC0) := by omega
        have g3 : ¬ (0xE0 + c / 4096 < 0xE0) := by omega
        have g4 : 0xE0 + c / 4096 < 0xF0 := by omega
        have g5 : 0x800 ≤ c := by omega
        simp only [List.cons_append, List.nil_append, decodeOne, if_neg g1, if_neg g2, if_neg g3,
          if_pos g4, e, hc1, hc2, hs, Bool.true_and, Bool.and_true, decide_eq_true_eq, if_pos g5]
      · rw [if_neg h3]
        have e : (0xF0 + c / 262144 - 0xF0) * 262144 + (0x80 + c / 4096 % 64 - 0x80) * 4096 +
            (0x80 + c / 64 % 64 - 0x80) * 64 + (0x80 + c % 64 - 0x80) = c := by omega
        have hc1 : isCont (0x80 + c / 4096 % 64) = true := (isCont_iff _).mpr (by omega)
        have hc2 : isCont (0x80 + c / 64 % 64) = true := (isCont_iff _).mpr (by omega)
        have hc3 : isCont (0x80 + c % 64) = true := (isCont_iff _).mpr (by omega)
        have g1 : ¬ (0xF0 + c / 262144 < 0x80) := by omega
        have g2 : ¬ (0xF0 + c / 262144 < 0xC0) := by omega
        have g3 : ¬ (0xF0 + c / 262144 < 0xE0) := by omega
        have g4 : ¬ (0xF0 + c / 262144 < 0xF0) := by omega
        have g5 : 0xF0 + c / 262144 < 0xF8 := by omega
        have g6 : 0x10000 ≤ c := by omega
        simp only [List.cons_append, List.nil_append, decodeOne, if_neg g1, if_neg g2, if_neg g3,
          if_neg g4, if_pos g5, e, hc1, hc2, hc3, hs, Bool.true_and, Bool.and_true,
          decide_eq_true_eq, if_pos g6]


theorem decodeOne_sound (bs : List Nat) (c : Nat) (rest : List Nat)
    (h : decodeOne bs = some (c, rest)) :
    isScalar c = true ∧ bs = utf8EncodeChar c ++ rest := by
  cases bs with
  | nil => simp [decodeOne] at h
  | cons b0 r =>
    simp only [decodeOne] at h
    by_cases h1 : b0 < 0x80
    · rw [if_pos h1] at h
      simp only [Option.some.injEq, Prod.mk.injEq] at h
      obtain ⟨rfl, rfl⟩ := h
      refine ⟨(isScalar_iff _).mpr (by omega), ?_⟩
      simp [utf8EncodeChar, h1]
    · rw [if_neg h1] at h
      by_cases h2 : b0 < 0xC0
      · rw [if_pos h2] at h
        cases h
      · rw [if_neg h2] at h
        by_cases h3 : b0 < 0xE0
        · rw [if_pos h3] at h
          cases r with
          | nil => cases h
          | cons b1 r1 =>
            simp only at h
            split_ifs at h with hc
            simp only [Bool.and_eq_true, decide_eq_true_eq, isCont_iff] at hc
            simp only [Option.some.injEq, Prod.mk.injEq] at h
            obtain ⟨hcv, rfl⟩ := h
            subst hcv
            refine ⟨(isScalar_iff _).mpr (by omega), ?_⟩
            have k1 : ¬ ((b0 - 0xC0) * 64 + (b1 - 0x80) < 0x80) := by omega
            have k2 : (b0 - 0xC0) * 64 + (b1 - 0x80) < 0x800 := by omega
            have e1 : 0xC0 + ((b0 - 0xC0) * 64 + (b1 - 0x80)) / 64 = b0 := by omega
            have e2 : 0x80 + ((b0 - 0xC0) * 64 + (b1 - 0x80)) % 64 = b1 := by omega
            simp only [utf8EncodeChar, if_neg k1, if_pos k2, e1, e2, List.cons_append,
              List.nil_append]
        · rw [if_neg h3] at h
          by_cases h4 : b0 < 0xF0
          · rw [if_pos h4] at h
            match r, h with
            | [], h => cases h
            | [_], h => cases h
            | b1 :: b2 :: r2, h =>
              simp only at h
              split_ifs at h with hc
              simp only [Bool.and_eq_true, decide_eq_true_eq, isCont_iff, isScalar_iff] at hc
              simp only [Option.some.injEq, Prod.mk.injEq] at h
              obtain ⟨hcv, rfl⟩ := h
              subst hcv
              refine ⟨(isScalar_iff _).mpr hc.2, ?_⟩
              have k1 : ¬ ((b0 - 0xE0) * 4096 + (b1 - 0x80) * 64 + (b2 - 0x80) < 0x80) := by omega
              have k2 : ¬ ((b0 - 0xE0) * 4096 + (b1 - 0x80) * 64 + (b2 - 0x80) < 0x800) := by
                omega
              have k3 : (b0 - 0xE0) * 4096 + (b1 - 0x80) * 64 + (b2 - 0x80) < 0x10000 := by omega
              have e1 : 0xE0 + ((b0 - 0xE0) * 4096 + (b1 - 0x80) * 64 + (b2 - 0x80)) / 4096 = b0 := by
                omega
              have e2 : 0x80 + ((b0 - 0xE0) * 4096 + (b1 - 0x80) * 64 + (b2 - 0x80)) / 64 % 64
                  = b1 := by omega
              have e3 : 0x80 + ((b0 - 0xE0) * 4096 + (b1 - 0x80) * 64 + (b2 - 0x80)) % 64 = b2 := by
                omega
              simp only [utf8EncodeChar, if_neg k1, if_neg k2, if_pos k3, e1, e2, e3,
                List.cons_append, List.nil_append]
          · rw [if_neg h4] at h
            by_cases h5 : b0 < 0xF8
            · rw [if_pos h5] at h
              match r, h with
              | [], h => cases h
              | [_], h => cases h
              | [_, _], h => cases h
              | b1 :: b2 :: b3 :: r3, h =>
                simp only at h
                split_ifs at h with hc
                simp only [Bool.and_eq_true, decide_eq_true_eq, isCont_iff, isScalar_iff] at hc
                simp only [Option.some.injEq, Prod.mk.injEq] at h
                obtain ⟨hcv, rfl⟩ := h
                subst hcv
                refine ⟨(isScalar_iff _).mpr hc.2, ?_⟩
                have k1 : ¬ ((b0 - 0xF0) * 262144 + (b1 - 0x80) * 4096 + (b2 - 0x80) * 64 +
                    (b3 - 0x80) < 0x80) := by omega
                have k2 : ¬ ((b0 - 0xF0) * 262144 + (b1 - 0x80) * 4096 + (b2 - 0x80) * 64 +
                    (b3 - 0x80) < 0x800) := by omega
                have k3 : ¬ ((b0 - 0xF0) * 262144 + (b1 - 0x80) * 4096 + (b2 - 0x80) * 64 +
                    (b3 - 0x80) < 0x10000) := by omega
                have e1 : 0xF0 + ((b0 - 0xF0) * 262144 + (b1 - 0x80) * 4096 + (b2 - 0x80) * 64 +
                    (b3 - 0x80)) / 262144 = b0 := by omega
                have e2 : 0x80 + ((b0 - 0xF0) * 262144 + (b1 - 0x80) * 4096 + (b2 - 0x80) * 64 +
                    (b3 - 0x80)) / 4096 % 64 = b1 := by omega
                have e3 : 0x80 + ((b0 - 0xF0) * 262144 + (b1 - 0x80) * 4096 + (b2 - 0x80) * 64 +
                    (b3 - 0x80)) / 64 % 64 = b2 := by omega
                have e4 : 0x80 + ((b0 - 0xF0) * 262144 + (b1 - 0x80) * 4096 + (b2 - 0x80) * 64 +
                    (b3 - 0x80)) % 64 = b3 := by omega
                simp only [utf8EncodeChar, if_neg k1, if_neg k2, if_neg k3, e1, e2, e3, e4,
                  List.cons_append, List.nil_append]
            · rw [if_neg h5] at h
              cases h

theorem utf8EncodeChar_length_pos (c : Nat) : 0 < (utf8EncodeChar c).length := by
  unfold utf8EncodeChar
  split_ifs <;> simp

theorem utf8Encode_cons (c : Nat) (cs : List Nat) :
    utf8Encode (c :: cs) = utf8EncodeChar c ++ utf8Encode cs := by
  simp [utf8Encode]

theorem decodeAll_sound (n : Nat) : ∀ (bs cps : List Nat), decodeAll n bs = some cps →
    (∀ c ∈ cps, isScalar c = true) ∧ utf8Encode cps = bs := by
  induction n with
  | zero =>
    intro bs cps h
    cases bs with
    | nil =>
      simp only [decodeAll, Option.some.injEq] at h
      subst h
      exact ⟨by simp, rfl⟩
    | cons b r => simp [decodeAll] at h
  | succ n ih =>
    intro bs cps h
    cases bs with
    | nil =>
      simp only [decodeAll, Option.some.injEq] at h
      subst h
      exact ⟨by simp, rfl⟩
    | cons b r =>
      rw [decodeAll] at h
      cases hd : decodeOne (b :: r) with
      | none => simp [hd] at h
      | some p =>
        obtain ⟨c, rest⟩ := p
        simp only [hd] at h
        cases hr : decodeAll n rest with
        | none => simp [hr] at h
        | some cs =>
          simp only [hr, Option.map_some', Option.some.injEq] at h
          subst h
          obtain ⟨hsc, hb⟩ := decodeOne_sound _ _ _ hd
          obtain ⟨hall, henc⟩ := ih rest cs hr
          refine ⟨?_, ?_⟩
          · intro x hx
            rcases List.mem_cons.mp hx with rfl | hx
            · exact hsc
            · exact hall x hx
          · rw [utf8Encode_cons, henc, hb]

theorem decodeAll_complete (cps : List Nat) : ∀ n : Nat, (∀ c ∈ cps, isScalar c = true) →
    (utf8Encode cps).length ≤ n → decodeAll n (utf8Encode cps) = some cps := by
  induction cps with
  | nil =>
    intro n _ _
    cases n <;> rfl
  | cons c cs ih =>
    intro n hs hlen
    have hc : isScalar c = true := hs c (List.mem_cons_self c cs)
    have hcs : ∀ x ∈ cs, isScalar x = true := fun x hx => hs x (List.mem_cons_of_mem c hx)
    have hpos := utf8EncodeChar_length_pos c
    rw [utf8Encode_cons] at hlen ⊢
    rw [List.length_append] at hlen
    cases n with
    | zero => omega
    | succ m =>
      have hd := decodeOne_encode c hc (utf8Encode cs)
      cases hb : utf8EncodeChar c ++ utf8Encode cs with
      | nil =>
        have := congrArg List.length hb
        simp only [List.length_append, List.length_nil] at this
        omega
      | cons b r =>
        rw [hb] at hd
        rw [decodeAll, hd]
        simp only
        rw [ih m hcs (by omega)]
        rfl

theorem from_bytes_eq_some_iff (bs cps : List Nat) :
    from_bytes bs = some cps ↔ (∀ c ∈ cps, isScalar c = true) ∧ utf8Encode cps = bs := by
  constructor
  · exact decodeAll_sound _ bs cps
  · rintro ⟨hs, rfl⟩
    exact decodeAll_complete cps _ hs (le_refl _)

theorem from_bytes_eq_none_iff (bs : List Nat) : from_bytes bs = none ↔ ¬ ValidUTF8 bs := by
  constructor
  · rintro h ⟨cps, hs, he⟩
    rw [(from_bytes_eq_some_iff bs cps).mpr ⟨hs, he⟩] at h
    cases h
  · intro h
    cases hf : from_bytes bs with
    | none => rfl
    | some cps => exact absurd ⟨cps, (from_bytes_eq_some_iff bs cps).mp hf⟩ h
/-- C9, counterexample: a command with an embedded NUL byte is handed to the
shell cut at that byte, not unchanged, on a Unix build; on a Windows build
the same bytes are valid UTF-8, decode to themselves, and the decoding is
likewise handed over cut at the NUL. -/
theorem runSystemCommand_cuts_at_nul :
    (runSystemCommand buildPosix hostLogind (lit "echo a" ++ [0] ++ lit "b")
        (World.init fsPlain)).2.trace = [Event.system (lit "echo a")] ∧
      (runSystemCommand buildPosix hostLogind (lit "echo a" ++ [0] ++ lit "b")
        (World.init fsPlain)).2.trace ≠
        [Event.system (lit "echo a" ++ [0] ++ lit "b")] ∧
      from_bytes (lit "echo a" ++ [0] ++ lit "b") = some (lit "echo a" ++ [0] ++ lit "b") ∧
      (runSystemCommand buildWin hostLogind (lit "echo a" ++ [0] ++ lit "b")
        (World.init fsPlain)).2.trace = [Event.wsystem (lit "echo a")] ∧
      (runSystemCommand buildWin hostLogind (lit "echo a" ++ [0] ++ lit "b")
        (World.init fsPlain)).2.trace ≠
        [Event.wsystem (lit "echo a" ++ [0] ++ lit "b")] := by
  decide

/-- C9, amended: `runSystemCommand cmd` makes exactly one shell invocation and
returns exactly the status it yields, with no remapping.  On non-Windows
platforms the string handed to the shell is `cmd` up to its first NUL byte,
which is `cmd` itself when it holds none.  On Windows it is the UTF-8 decoding
of `cmd` (the scalar values whose encoding is `cmd`) up to its first NUL code
unit, the whole decoding when it holds none; a `cmd` that is not valid UTF-8
makes the call end in the conversion error, with no call made and the state
unchanged. -/
theorem runSystemCommand_spec (b : Build) (h : Host) (cmd : StdString) (w : World) :
    (b.WIN32 = false →
        runSystemCommand b h cmd w =
          (Except.ok (h.system (c_str cmd)),
            { w with trace := w.trace ++ [Event.system (c_str cmd)] })) ∧
      (b.WIN32 = false → 0 ∉ cmd →
        runSystemCommand b h cmd w =
          (Except.ok (h.system cmd), { w with trace := w.trace ++ [Event.system cmd] })) ∧
      (∀ cps : List Nat, b.WIN32 = true → (∀ c ∈ cps, isScalar c = true) →
        utf8Encode cps = cmd →
        runSystemCommand b h cmd w =
          (Except.ok (h.wsystem (c_str cps)),
            { w with trace := w.trace ++ [Event.wsystem (c_str cps)] })) ∧
      (∀ cps : List Nat, b.WIN32 = true → (∀ c ∈ cps, isScalar c = true) →
        utf8Encode cps = cmd → 0 ∉ cps →
        runSystemCommand b h cmd w =
          (Except.ok (h.wsystem cps), { w with trace := w.trace ++ [Event.wsystem cps] })) ∧
      (b.WIN32 = true → ValidUTF8 cmd →
        ∃ cps : List Nat, (∀ c ∈ cps, isScalar c = true) ∧ utf8Encode cps = cmd ∧
          runSystemCommand b h cmd w =
            (Except.ok (h.wsystem (c_str cps)),
              { w with trace := w.trace ++ [Event.wsystem (c_str cps)] })) ∧
      (b.WIN32 = true → ¬ ValidUTF8 cmd →
        runSystemCommand b h cmd w = (Except.error Exception.range_error, w)) ∧
      c_str cmd <+: cmd ∧ 0 ∉ c_str cmd := by
  have hwin : ∀ cps : List Nat, b.WIN32 = true → (∀ c ∈ cps, isScalar c = true) →
      utf8Encode cps = cmd →
      runSystemCommand b h cmd w =
        (Except.ok (h.wsystem (c_str cps)),
          { w with trace := w.trace ++ [Event.wsystem (c_str cps)] }) := by
    intro cps hw hs he
    have hf := (from_bytes_eq_some_iff cmd cps).mpr ⟨hs, he⟩
    simp [runSystemCommand, hw, hf, wsystem]
  refine ⟨?_, ?_, hwin, ?_, ?_, ?_, List.takeWhile_prefix _, c_str_no_nul cmd⟩
  · intro hw
    simp [runSystemCommand, hw, system]
  · intro hw h0
    simp [runSystemCommand, hw, system, c_str_eq_self cmd h0]
  · intro cps hw hs he h0
    rw [hwin cps hw hs he, c_str_eq_self cps h0]
  · rintro hw ⟨cps, hs, he⟩
    exact ⟨cps, hs, he, hwin cps hw hs he⟩
  · intro hw hv
    have hf := (from_bytes_eq_none_iff cmd).mpr hv
    simp [runSystemCommand, hw, hf]

/-- Witness for the amended C9: a NUL-free command on a Unix build reaches the
shell unchanged and its status comes back; on a Windows build the bytes of
"dir é" reach the shell as their five code points, and a command holding the
byte 0xFF ends in the conversion error with nothing run. -/
theorem runSystemCommand_spec_witness :
    runSystemCommand buildPosix hostLogind (lit "ls /tmp") (World.init fsPlain) =
        (Except.ok 7, { World.init fsPlain with trace := [Event.system (lit "ls /tmp")] }) ∧
      runSystemCommand buildWin hostLogind (lit "dir " ++ [0xC3, 0xA9]) (World.init fsPlain) =
        (Except.ok 7,
          { World.init fsPlain with trace := [Event.wsystem (lit "dir " ++ [0xE9])] }) ∧
      runSystemCommand buildWin hostLogind (lit "dir " ++ [0xFF]) (World.init fsPlain) =
        (Except.error Exception.range_error, World.init fsPlain) :=
  ⟨(runSystemCommand_spec buildPosix hostLogind (lit "ls /tmp") (World.init fsPlain)).2.1
      rfl (by decide),
   (runSystemCommand_spec buildWin hostLogind (lit "dir " ++ [0xC3, 0xA9])
      (World.init fsPlain)).2.2.2.1 (lit "dir " ++ [0xE9]) rfl (by decide) (by decide)
      (by decide),
   (runSystemCommand_spec buildWin hostLogind (lit "dir " ++ [0xFF])
      (World.init fsPlain)).2.2.2.2.2.1 rfl
      ((from_bytes_eq_none_iff (lit "dir " ++ [0xFF])).mp (by decide))⟩

/-- C10: `touch` reports nothing (it returns only the new state) and never
writes content: it adds an empty file when the path is neither an existing
file, nor a directory, nor unopenable, otherwise it leaves the file system as
it was, and the content of every existing file is kept.  A failed touch does
not disturb `processQuitMode`: for REBOOT (resp. SHUTDOWN) the result is still
that of `runRestartCommand` (resp. `runShutdownCommand`) run once after the
touch, issuing exactly the events it issues from the state before the touch,
and when the open fails the file system is left untouched. -/
theorem touch_failure_swallowed (b : Build) (h : Host) (filename : StdString) (w : World) :
    (touch b filename w).trace = w.trace ++ [touchEvent b (c_str filename)] ∧
      (touch b filename w).quitMode = w.quitMode ∧
      (touch b filename w).sdlQueue = w.sdlQueue ∧
      (touch b filename w).log = w.log ∧
      (w.fs.isFile (c_str filename) = false → w.fs.dirs.contains (c_str filename) = false →
        w.fs.denied.contains (c_str filename) = false →
        (touch b filename w).fs =
          { w.fs with files := w.fs.files ++ [(c_str filename, [])] }) ∧
      (w.fs.isFile (c_str filename) = true ∨ w.fs.dirs.contains (c_str filename) = true ∨
          w.fs.denied.contains (c_str filename) = true →
        (touch b filename w).fs = w.fs) ∧
      ((w.fs.open_creat (c_str filename)).1 < 0 ∨ (w.fs.fopen_ab (c_str filename)).1 = false →
        (touch b filename w).fs = w.fs) ∧
      (∀ q, w.fs.isFile q = true → (touch b filename w).fs.content q = w.fs.content q) ∧
      (w.quitMode = QuitMode.REBOOT →
        processQuitMode b h w =
            (runRestartCommand b h (touch b (lit "/tmp/es-sysrestart")
              (LOG LogLevel.LogInfo (lit "Rebooting system") w))).2 ∧
          (∀ E, (runRestartCommand b h w).2.trace = w.trace ++ E →
            (processQuitMode b h w).trace =
              w.trace ++ touchEvent b (lit "/tmp/es-sysrestart") :: E) ∧
          ((w.fs.open_creat (lit "/tmp/es-sysrestart")).1 < 0 →
            (processQuitMode b h w).fs = w.fs)) ∧
      (w.quitMode = QuitMode.SHUTDOWN →
        processQuitMode b h w =
            (runShutdownCommand b h (touch b (lit "/tmp/es-shutdown")
              (LOG LogLevel.LogInfo (lit "Shutting system down") w))).2 ∧
          (∀ E, (runShutdownCommand b h w).2.trace = w.trace ++ E →
            (processQuitMode b h w).trace =
              w.trace ++ touchEvent b (lit "/tmp/es-shutdown") :: E) ∧
          ((w.fs.open_creat (lit "/tmp/es-shutdown")).1 < 0 →
            (processQuitMode b h w).fs = w.fs)) := by
  have hfail : ∀ p : CStr, (w.fs.open_creat p).1 < 0 → (w.fs.open_creat p).2 = w.fs := by
    intro p
    unfold FileSystem.open_creat
    split
    · intro _; rfl
    · split <;> simp
  have hfailW : ∀ p : CStr, (w.fs.fopen_ab p).1 = false → (w.fs.open_creat p).2 = w.fs := by
    intro p
    unfold FileSystem.fopen_ab FileSystem.open_creat
    split
    · intro _; rfl
    · split <;> simp
  refine ⟨touch_trace b filename w, (touch_frame b filename w).1,
    (touch_frame b filename w).2.1, (touch_frame b filename w).2.2, ?_, ?_, ?_, ?_, ?_, ?_⟩
  · intro h1 h2 h3
    have h2m : c_str filename ∉ w.fs.dirs := by simpa using h2
    have h3m : c_str filename ∉ w.fs.denied := by simpa using h3
    rw [touch_fs]
    simp [FileSystem.open_creat, h1, h2m, h3m]
  · intro hc
    rw [touch_fs]
    unfold FileSystem.open_creat
    rcases hc with h1 | h2 | h3
    · split
      · rfl
      · simp [h1]
    · have h2m : c_str filename ∈ w.fs.dirs := by simpa using h2
      simp [h2m]
    · have h3m : c_str filename ∈ w.fs.denied := by simpa using h3
      simp [h3m]
  · intro hc
    rw [touch_fs]
    rcases hc with h1 | h2
    · exact hfail _ h1
    · exact hfailW _ h2
  · intro q hq
    rw [touch_fs]
    exact open_creat_content w.fs (c_str filename) q hq
  · intro hm
    refine ⟨processQuitMode_reboot b h w hm, processQuitMode_reboot_trace b h w hm, ?_⟩
    intro hneg
    rw [processQuitMode_reboot b h w hm, (runRestartCommand_frame b h _).1, touch_fs,
      c_str_sysrestart]
    exact hfail _ hneg
  · intro hm
    refine ⟨processQuitMode_shutdown b h w hm, processQuitMode_shutdown_trace b h w hm, ?_⟩
    intro hneg
    rw [processQuitMode_shutdown b h w hm, (runShutdownCommand_frame b h _).1, touch_fs,
      c_str_shutdown]
    exact hfail _ hneg

/-- Witness for C10: with the marker uncreatable, a REBOOT still issues the
touch followed by the restart command and leaves the file system as it was. -/
theorem touch_failure_swallowed_witness :
    (processQuitMode buildPosix hostLogind (worldOf QuitMode.REBOOT fsReadOnly)).trace =
        [Event.openCreat (lit "/tmp/es-sysrestart"), Event.system (lit "sudo shutdown -r now")] ∧
      (processQuitMode buildPosix hostLogind (worldOf QuitMode.REBOOT fsReadOnly)).fs =
        fsReadOnly :=
  ⟨((touch_failure_swallowed buildPosix hostLogind [] (worldOf QuitMode.REBOOT fsReadOnly)
      ).2.2.2.2.2.2.2.2.1 rfl).2.1 [Event.system (lit "sudo shutdown -r now")] (by decide),
   ((touch_failure_swallowed buildPosix hostLogind [] (worldOf QuitMode.REBOOT fsReadOnly)
      ).2.2.2.2.2.2.2.2.1 rfl).2.2 (by decide)⟩

end ES
